import Mathlib

/-!
Verification of the Scope & Progress Engine of the `claude-hub` conductor
package against its natural-language specification.

The Python sources are shallowly embedded as executable Lean definitions:

* `src/conductor/state.py`   — scope-creep classifier (`ProjectState`);
* `src/conductor/context.py` — context assembler (`ContextManager`);
* `src/conductor/monitor.py` — progress analyzer (`ProgressMonitor`);
* `src/conductor/db.py`      — the task-row mutation `Database.update_task`.

Modelling conventions:

* Python strings are Lean `String`s (Python `len`/slicing count code points,
  as do `String.length`/`String.take`).
* Python floats are modelled as exact rationals `ℚ`; `round(x, n)` is
  modelled by decimal round-half-to-even (`pyRound`), which agrees with
  Python on every concrete value appearing in this development.
* ISO-8601 timestamps are modelled as rationals (hours on a common clock):
  `datetime.fromisoformat` followed by comparison/subtraction is order- and
  difference-preserving, which is all the code uses.
* The five exclusion regexes and `\b\w+\b` tokenization are hand-compiled
  scanners with Python `re.findall` semantics (left-to-right scan,
  non-overlapping matches, greedy character classes); `\w` and `\s` are
  modelled over their ASCII fragments, which cover every string the
  repository and this file use.
-/

namespace Conductor

/-- ASCII apostrophe, written via its code point. -/
def apostChar : Char := Char.ofNat 39

/-- Python `\w` (ASCII fragment): letters, digits, underscore. -/
def isWordChar (c : Char) : Bool := c.isAlphanum || c = '_'

/-- Python `\s` (ASCII fragment): space, tab, CR, LF. -/
def isPySpace (c : Char) : Bool := c.isWhitespace

/-- Python `str.lower()` on a character list (ASCII case mapping). -/
def lowerL (s : String) : List Char := s.toList.map Char.toLower

/-- Accumulator pass splitting a character list into the maximal runs of
word characters, i.e. Python `re.findall(r'\b\w+\b', text)`. -/
def tokenizeAux : List Char → List Char → List (List Char)
  | [], acc => if acc = [] then [] else [acc.reverse]
  | c :: rest, acc =>
      if isWordChar c then tokenizeAux rest (c :: acc)
      else if acc = [] then tokenizeAux rest []
      else acc.reverse :: tokenizeAux rest []

/-- `words text` models `re.findall(r'\b\w+\b', text.lower())`. -/
def words (text : String) : List String :=
  (tokenizeAux (lowerL text) []).map (fun w => String.mk w)

/-- Stop-word set of `ProjectState.extract_keywords` (state.py lines 100-109). -/
def stop_words_state : List String :=
  ["a", "an", "and", "are", "as", "at", "be", "by", "for",
   "from", "has", "he", "in", "is", "it", "its", "of", "on",
   "that", "the", "to", "was", "will", "with", "this", "but",
   "they", "have", "had", "what", "when", "where", "who", "which",
   "why", "how", "all", "each", "every", "both", "few", "more",
   "most", "other", "some", "such", "no", "nor", "not", "only",
   "own", "same", "so", "than", "too", "very", "can", "just",
   "should", "now"]

/-- `ProjectState.extract_keywords` (state.py lines 90-120): word tokens of
the lower-cased text, minus stop words, keeping only length > 2. -/
def extract_keywords (text : String) : List String :=
  (words text).filter
    (fun w => !(stop_words_state.contains w) && decide (2 < w.length))

/-- `ProjectState.calculate_similarity` (state.py lines 122-150): Jaccard
similarity of the two keyword lists viewed as sets, 0.0 if either input
list is empty or the union is empty. -/
def calculate_similarity (keywords1 keywords2 : List String) : ℚ :=
  if keywords1 = [] ∨ keywords2 = [] then 0
  else
    let s1 := keywords1.toFinset
    let s2 := keywords2.toFinset
    let inter := (s1 ∩ s2).card
    let uni := (s1 ∪ s2).card
    if uni = 0 then 0 else (inter : ℚ) / (uni : ℚ)

/-- Python `needle in hay` for strings: contiguous sublist containment. -/
def strContains (hay needle : List Char) : Bool :=
  needle.isPrefixOf hay ||
    match hay with
    | [] => false
    | _ :: t => strContains t needle

/-- Match a literal character sequence at the head of `s`, returning what
follows it. -/
def matchLit : List Char → List Char → Option (List Char)
  | [], s => some s
  | _ :: _, [] => none
  | c :: cs, x :: xs => if x = c then matchLit cs xs else none

/-- Match one exclusion regex at the head of `s`.  The regex is a list of
literal chunks separated by `\s+` and terminated by a captured `(\w+)`;
returns the capture and the remainder of the string after the whole match.
`\s+` and `\w+` are greedy, which is unambiguous here because the two
classes are disjoint and the literals start with word characters. -/
def matchPat : List (List Char) → List Char → Option (List Char × List Char)
  | [], s =>
      let cap := s.takeWhile isWordChar
      if cap = [] then none else some (cap, s.dropWhile isWordChar)
  | lit :: rest, s =>
      match matchLit lit s with
      | none => none
      | some s1 =>
          match s1 with
          | [] => none
          | c :: _ =>
              if isPySpace c then matchPat rest (s1.dropWhile isPySpace)
              else none

/-- Python `re.findall` scan: try the pattern at each position, and on a
match continue after its end (non-overlapping).  The fuel starts at the
string length; every step consumes at least one character (a successful
match contains a non-empty capture), so the fuel never runs out. -/
def findall_go (lits : List (List Char)) : ℕ → List Char → List (List Char)
  | 0, _ => []
  | _, [] => []
  | fuel + 1, s@(_ :: rest) =>
      match matchPat lits s with
      | some (cap, r2) => cap :: findall_go lits fuel r2
      | none => findall_go lits fuel rest

/-- `re.findall(pattern, s)` for one exclusion pattern. -/
def findall (lits : List (List Char)) (s : List Char) : List (List Char) :=
  findall_go lits s.length s

/-- The literal `don't`, with the apostrophe spelled via its code point. -/
def dontWord : String := "don" ++ String.singleton apostChar ++ "t"

/-- The five exclusion patterns of `ProjectState.is_explicitly_excluded`
(state.py lines 71-77): each entry is the pattern's literal chunks
(separated by `\s+`, followed by the `(\w+)` capture) paired with the words
inserted into the `Explicitly excluded: ... {}` message template. -/
def exclusion_patterns : List (List (List Char) × String) :=
  [([("no" : String).toList], "no"),
   ([("without" : String).toList], "without"),
   ([dontWord.toList], dontWord),
   ([("exclude" : String).toList], "exclude"),
   ([("not" : String).toList, ("including" : String).toList], "not including")]

/-- The message `'Explicitly excluded: <kind> {}'.format(match)`. -/
def mkExclMessage (kind : String) (m : List Char) : String :=
  "Explicitly excluded: " ++ kind ++ " " ++ String.mk m

/-- Scan the exclusion patterns in order; for the first pattern one of
whose captures (in match order) occurs in the lowered task text, return
the corresponding message.  The Python loop tests
`match in task_lower or match in task_description.lower()`, whose two
operands are the same string, so a single containment test is faithful. -/
def excl_scan (taskL scopeL : List Char) :
    List (List (List Char) × String) → Bool × String
  | [] => (false, "")
  | (lits, kind) :: rest =>
      match (findall lits scopeL).find? (fun m => strContains taskL m) with
      | some m => (true, mkExclMessage kind m)
      | none => excl_scan taskL scopeL rest

/-- `ProjectState.is_explicitly_excluded` (state.py lines 56-88). -/
def is_explicitly_excluded (task scope : String) : Bool × String :=
  excl_scan (lowerL task) (lowerL scope) exclusion_patterns

/-- Round half to even, the rounding Python's `round` and `format` use. -/
def roundHalfEven (q : ℚ) : ℤ :=
  let f := ⌊q⌋
  if q - f < 1 / 2 then f
  else if 1 / 2 < q - f then f + 1
  else if f % 2 = 0 then f else f + 1

/-- Python `round(q, ndigits)` on non-negative values. -/
def pyRound (ndigits : ℕ) (q : ℚ) : ℚ :=
  (roundHalfEven (q * (10 : ℚ) ^ ndigits) : ℚ) / (10 : ℚ) ^ ndigits

/-- Python `f"{q:.2f}"` for the non-negative similarity values the
classifier formats. -/
def format2f (q : ℚ) : String :=
  let r := roundHalfEven (q * 100)
  let fpart := (r % 100).toNat
  toString (r / 100) ++ "." ++ (if fpart < 10 then "0" else "") ++
    toString fpart

/-- `ProjectState.check_scope_creep` (state.py lines 21-54) on a resolved
scope, generalized over the similarity function it consults so that the
short-circuit of the exclusion check is expressible: the classifier is
`check_scope_creep_with calculate_similarity`. -/
def check_scope_creep_with (simf : List String → List String → ℚ)
    (scope task : String) : Bool × String :=
  let excl := is_explicitly_excluded task scope
  if excl.fst then (true, excl.snd)
  else
    let s := simf (extract_keywords scope) (extract_keywords task)
    if s < 3 / 10 then
      (true, "Low relevance to original scope (similarity: " ++
        format2f s ++ ")")
    else
      (false, "Within scope (similarity: " ++ format2f s ++ ")")

/-- `ProjectState.check_scope_creep` for a project with the given scope. -/
def check_scope_creep (scope task : String) : Bool × String :=
  check_scope_creep_with calculate_similarity scope task

/-- A stored project row, as far as the classifier reads it. -/
structure ProjectRec where
  name : String
  scope : String
deriving DecidableEq

/-- `ProjectState.check_scope_creep` including the project lookup:
`db.get_project` yields `none` when the classifier's project id does not
resolve (state.py lines 30-32). -/
def check_scope_creep_db (proj : Option ProjectRec) (task : String) :
    Bool × String :=
  match proj with
  | none => (false, "Project not found")
  | some p => check_scope_creep p.scope task

/-- The pruning loop of `ContextManager.optimize_context` (context.py
lines 176-191): keep whole parts while the running size counter (which
counts part lengths only, not the `"\n"` separators the final join will
insert) stays within the budget; at the first part that would overflow,
append a truncated version if more than 100 characters of budget remain,
and in every case stop there. -/
def prune_parts (maxSize : ℕ) : ℕ → List String → List String
  | _, [] => []
  | cur, p :: rest =>
      if cur + p.length ≤ maxSize then
        p :: prune_parts maxSize (cur + p.length) rest
      else if 100 < maxSize - cur then
        [p.take (maxSize - cur - 50) ++ "\n\n... (truncated)"]
      else []

/-- `ContextManager.optimize_context` (context.py lines 159-193) for a
manager configured with `max_context_size = maxSize`. -/
def optimize_context (maxSize : ℕ) (parts : List String) : String :=
  let full := String.intercalate "\n" parts
  if full.length ≤ maxSize then full
  else String.intercalate "\n" (prune_parts maxSize 0 parts)

/-- Stop-word set of `ContextManager.get_scope_keywords` (context.py lines
212-216) — a strict subset of the classifier's list. -/
def ctx_stop_words : List String :=
  ["a", "an", "and", "are", "as", "at", "be", "by", "for",
   "from", "has", "he", "in", "is", "it", "its", "of", "on",
   "that", "the", "to", "was", "will", "with"]

/-- The tokenization `ContextManager.get_scope_keywords` applies to a
resolved project's scope text (context.py lines 210-222). -/
def ctx_scope_keywords (scope : String) : List String :=
  (words scope).filter
    (fun w => !(ctx_stop_words.contains w) && decide (2 < w.length))

/-- The task-side tokenization inside
`ContextManager.calculate_relevance_score` (context.py lines 243-244):
word tokens of the lower-cased text of length > 2, with no stop-word
filtering at all. -/
def task_side_tokens (task : String) : List String :=
  (words task).filter (fun w => decide (2 < w.length))

/-- `ContextManager.calculate_relevance_score` (context.py lines 224-256);
`proj` is the `db.get_project` result (`get_scope_keywords` returns the
empty list when it is `none`). -/
def calculate_relevance_score (proj : Option ProjectRec) (task : String) :
    ℚ :=
  let sk := (match proj with
    | none => ([] : List String)
    | some p => ctx_scope_keywords p.scope).toFinset
  if sk = ∅ then 1 / 2
  else
    let tk := (task_side_tokens task).toFinset
    if tk = ∅ then 1 / 2
    else
      let uni := sk ∪ tk
      if uni = ∅ then 1 / 2
      else ((sk ∩ tk).card : ℚ) / (uni.card : ℚ)

/-- Task status, the four values admitted by the tasks table CHECK
constraint (db.py line 54). -/
inductive TStatus
  | pending
  | in_progress
  | completed
  | blocked
deriving DecidableEq

/-- A row of the tasks table, as far as the engine reads it.  Timestamps
are rationals measured in hours on a common clock. -/
structure DbTask where
  description : String
  status : TStatus
  is_scope_creep : Bool
  blocked_reason : Option String
  created_at : ℚ
  completed_at : Option ℚ
deriving DecidableEq

/-- The keyword arguments a lifecycle transition passes to
`Database.update_task`; `none` models an absent argument (the lifecycle
operations never pass an explicit null). -/
structure TaskUpdate where
  status : Option TStatus := none
  blocked_reason : Option String := none
  completed_at : Option ℚ := none

/-- `Database.update_task` (db.py lines 249-274) acting on the addressed
row: when the arguments set status to `completed` without an explicit
`completed_at`, `completed_at := now` is added to them; then exactly the
supplied fields overwrite the row's. -/
def update_task (now : ℚ) (kw : TaskUpdate) (t : DbTask) : DbTask :=
  let kw :=
    if kw.status = some TStatus.completed ∧ kw.completed_at = none then
      { kw with completed_at := some now }
    else kw
  { t with
    status := kw.status.getD t.status,
    blocked_reason :=
      match kw.blocked_reason with
      | some r => some r
      | none => t.blocked_reason,
    completed_at :=
      match kw.completed_at with
      | some c => some c
      | none => t.completed_at }

/-- `ProjectState.mark_task_complete` (state.py lines 262-272) on the
addressed row (the session counter increment touches no task field). -/
def mark_task_complete (now : ℚ) (t : DbTask) : DbTask :=
  update_task now { status := some TStatus.completed } t

/-- `ProjectState.mark_task_blocked` (state.py lines 274-281). -/
def mark_task_blocked (now : ℚ) (reason : String) (t : DbTask) : DbTask :=
  update_task now
    { status := some TStatus.blocked, blocked_reason := some reason } t

/-- `ProjectState.mark_task_in_progress` (state.py lines 283-289). -/
def mark_task_in_progress (now : ℚ) (t : DbTask) : DbTask :=
  update_task now { status := some TStatus.in_progress } t

/-- `Database.get_task_stats` (db.py lines 282-309): per-status counts;
`total` sums the group counts, i.e. counts every task since the CHECK
constraint admits only the four statuses. -/
structure TaskStats where
  pending : ℕ
  in_progress : ℕ
  completed : ℕ
  blocked : ℕ
  total : ℕ

/-- Compute `get_task_stats` from a project's task rows. -/
def get_task_stats (tasks : List DbTask) : TaskStats :=
  { pending := (tasks.filter (fun t => decide (t.status = TStatus.pending))).length,
    in_progress := (tasks.filter (fun t => decide (t.status = TStatus.in_progress))).length,
    completed := (tasks.filter (fun t => decide (t.status = TStatus.completed))).length,
    blocked := (tasks.filter (fun t => decide (t.status = TStatus.blocked))).length,
    total := tasks.length }

/-- The record `ProgressMonitor.get_velocity` returns (monitor.py lines
208-216). -/
structure Velocity where
  period_days : ℤ
  tasks_completed : ℕ
  tasks_per_day : ℚ
  remaining_tasks : ℕ
  estimated_days_to_completion : Option ℚ

/-- The `recent_completed` list of `ProgressMonitor.get_velocity`
(monitor.py lines 186-194): completed tasks whose `completed_at` is at or
after the cutoff `now - timedelta(days=days)`, i.e. `24 * days` hours
before `now`. -/
def velocity_recent (now : ℚ) (days : ℤ) (tasks : List DbTask) :
    List DbTask :=
  (tasks.filter (fun t => decide (t.status = TStatus.completed))).filter
    (fun t =>
      match t.completed_at with
      | some c => decide (now - 24 * (days : ℚ) ≤ c)
      | none => false)

/-- `ProgressMonitor.get_velocity` (monitor.py lines 175-216).  `now` is
`datetime.now()`.  The truthiness test
`round(estimated_days, 1) if estimated_days else None` maps both `None`
and an exact `0.0` estimate to null. -/
def get_velocity (now : ℚ) (days : ℤ) (tasks : List DbTask) : Velocity :=
  let recent := velocity_recent now days tasks
  let tpd : ℚ := if 0 < days then (recent.length : ℚ) / (days : ℚ) else 0
  let stats := get_task_stats tasks
  let remaining := stats.pending + stats.in_progress
  let est : Option ℚ :=
    if 0 < tpd then some ((remaining : ℚ) / tpd) else none
  { period_days := days,
    tasks_completed := recent.length,
    tasks_per_day := pyRound 2 tpd,
    remaining_tasks := remaining,
    estimated_days_to_completion :=
      match est with
      | some e => if e = 0 then none else some (pyRound 1 e)
      | none => none }

/-- A stuck indicator, reduced to the two fields `get_project_health`
reads (its type name and severity). -/
structure Indicator where
  itype : String
  severity : String
deriving DecidableEq

/-- `ProgressMonitor.detect_stuck_patterns` (monitor.py lines 107-173).
`pc` is the project's `created_at`; `(now - created).days` is the floor
of the age in days. -/
def detect_stuck_patterns (now pc : ℚ) (tasks : List DbTask) :
    List Indicator :=
  let longRunning := (tasks.filter (fun t =>
      decide (t.status = TStatus.in_progress) &&
        decide ((24 : ℚ) < now - t.created_at))).map
    (fun _ => Indicator.mk "long_running_task" "high")
  let blocked := tasks.filter (fun t => decide (t.status = TStatus.blocked))
  let manyBlocked :=
    if 3 < blocked.length then [Indicator.mk "many_blocked_tasks" "high"]
    else []
  let stats := get_task_stats tasks
  let noCompleted :=
    if stats.completed = 0 ∧ 0 < stats.total ∧ 1 < ⌊(now - pc) / 24⌋ then
      [Indicator.mk "no_completed_tasks" "medium"]
    else []
  let creep := tasks.filter (fun t => t.is_scope_creep)
  let creepInd :=
    if creep ≠ [] then [Indicator.mk "scope_creep" "medium"] else []
  longRunning ++ manyBlocked ++ noCompleted ++ creepInd

/-- The record `ProgressMonitor.get_project_health` returns. -/
structure Health where
  score : ℤ
  status : String
  issues : List String

/-- `ProgressMonitor.get_project_health` (monitor.py lines 218-281).
Python's `int()` on the non-negative ratio penalties is the floor.  The
velocity comparison reads the rounded `tasks_per_day` from the velocity
record, with the default 7-day window. -/
def get_project_health (now pc : ℚ) (tasks : List DbTask) : Health :=
  let stats := get_task_stats tasks
  let s0 : ℤ := 100
  let blockedPenalty : ℤ :=
    if 0 < stats.blocked then
      ⌊(if 0 < stats.total then
          (stats.blocked : ℚ) / (stats.total : ℚ) else 0) * 30⌋
    else 0
  let issues1 : List String :=
    if 0 < stats.blocked then [toString stats.blocked ++ " blocked tasks"]
    else []
  let stuck := detect_stuck_patterns now pc tasks
  let hi := (stuck.filter (fun p => p.severity == "high")).length
  let stuckPenalty : ℤ :=
    if stuck ≠ [] then (hi : ℤ) * 15 + ((stuck.length - hi : ℕ) : ℤ) * 5
    else 0
  let issues2 :=
    if stuck ≠ [] then
      issues1 ++ [toString stuck.length ++ " stuck indicators"]
    else issues1
  let vel := get_velocity now 7 tasks
  let velPenalty : ℤ := if vel.tasks_per_day < 1 / 2 then 10 else 0
  let issues3 :=
    if vel.tasks_per_day < 1 / 2 then issues2 ++ ["Low velocity"]
    else issues2
  let creep := tasks.filter (fun t => t.is_scope_creep)
  let creepRatio : ℚ := (creep.length : ℚ) / (tasks.length : ℚ)
  let creepPenalty : ℤ :=
    if creep ≠ [] ∧ 1 / 5 < creepRatio then ⌊creepRatio * 20⌋ else 0
  let issues4 :=
    if creep ≠ [] ∧ 1 / 5 < creepRatio then
      issues3 ++ [toString creep.length ++ " scope creep tasks"]
    else issues3
  let score :=
    max 0 (min 100 (s0 - blockedPenalty - stuckPenalty - velPenalty -
      creepPenalty))
  let status :=
    if 80 ≤ score then "healthy"
    else if 60 ≤ score then "needs_attention"
    else if 40 ≤ score then "at_risk"
    else "critical"
  { score := score, status := status, issues := issues4 }

example :
    optimize_context 10 ["aaaaa", "bbbbb"] = "aaaaa\nbbbbb" := by decide

example : optimize_context 11 ["aaaaa", "bbbbb"] = "aaaaa\nbbbbb" := by
  decide

example : extract_keywords "Build document pipeline using PostgreSQL" =
    ["build", "document", "pipeline", "using", "postgresql"] := by decide

example : extract_keywords "Implement vector embeddings with PostgreSQL" =
    ["implement", "vector", "embeddings", "postgresql"] := by decide

example :
    calculate_similarity
      (extract_keywords "Build document pipeline using PostgreSQL")
      (extract_keywords "Implement vector embeddings with PostgreSQL")
      = 1 / 8 := by
  rw [show extract_keywords "Build document pipeline using PostgreSQL" =
      ["build", "document", "pipeline", "using", "postgresql"] from by decide,
    show extract_keywords "Implement vector embeddings with PostgreSQL" =
      ["implement", "vector", "embeddings", "postgresql"] from by decide]
  rw [calculate_similarity, if_neg (by decide)]
  simp only []
  rw [show ((["build", "document", "pipeline", "using", "postgresql"].toFinset ∩
      ["implement", "vector", "embeddings", "postgresql"].toFinset).card) = 1
      from by decide]
  rw [show ((["build", "document", "pipeline", "using", "postgresql"].toFinset ∪
      ["implement", "vector", "embeddings", "postgresql"].toFinset).card) = 8
      from by decide]
  norm_num

example :
    is_explicitly_excluded "Add user authentication system"
      "Build document pipeline. No UI. No authentication." =
      (true, "Explicitly excluded: no authentication") := by decide

example :
    is_explicitly_excluded "Implement vector embeddings with PostgreSQL"
      "Build document pipeline using PostgreSQL" = (false, "") := by decide

/-- Jaccard similarity on finite sets, the set-level core of
`calculate_similarity`. -/
def jaccardF (s1 s2 : Finset String) : ℚ :=
  if s1 = ∅ ∨ s2 = ∅ then 0
  else ((s1 ∩ s2).card : ℚ) / ((s1 ∪ s2).card : ℚ)

/-- `calculate_similarity` depends on its two keyword lists only through
the sets of their elements: the `union = 0` guard is subsumed because a
non-empty list has a non-empty token set. -/
lemma calculate_similarity_eq_jaccardF (k1 k2 : List String) :
    calculate_similarity k1 k2 = jaccardF k1.toFinset k2.toFinset := by
  by_cases h : k1 = [] ∨ k2 = []
  · have h' : k1.toFinset = ∅ ∨ k2.toFinset = ∅ := by
      rcases h with h | h
      · exact Or.inl (by simp [h])
      · exact Or.inr (by simp [h])
    rw [calculate_similarity, if_pos h, jaccardF, if_pos h']
  · push_neg at h
    have h2 : ¬ (k1.toFinset = ∅ ∨ k2.toFinset = ∅) := by
      rintro (hc | hc)
      · exact h.1 (by simpa using hc)
      · exact h.2 (by simpa using hc)
    rw [calculate_similarity, if_neg (by tauto), jaccardF, if_neg h2]
    simp only []
    rw [if_neg]
    intro hu
    rw [Finset.card_eq_zero, Finset.union_eq_empty] at hu
    exact h.1 (by simpa using hu.1)

/-- `jaccardF` is symmetric. -/
lemma jaccardF_comm (s1 s2 : Finset String) :
    jaccardF s1 s2 = jaccardF s2 s1 := by
  by_cases h : s1 = ∅ ∨ s2 = ∅
  · rw [jaccardF, if_pos h, jaccardF, if_pos (Or.symm h)]
  · rw [jaccardF, if_neg h, jaccardF, if_neg (fun hc => h (Or.symm hc)),
      Finset.inter_comm, Finset.union_comm]

/-- A fixed pending task row used as concrete input. -/
def sampleTask : DbTask :=
  { description := "write docs",
    status := TStatus.pending,
    is_scope_creep := false,
    blocked_reason := none,
    created_at := 0,
    completed_at := none }

/-- C1: the Context Assembler's size bound fails: with a configured
maximum of 10, the parts `"aaaaa"` and `"bbbbb"` each fit the running
counter, but the joining newline pushes the assembled output to length
11 > 10.  The pruning loop of `optimize_context` counts part lengths only
and forgets the separators that `"\n".join` inserts, contradicting the
function's own full-fit check (which measures the joined string), its
docstring, and the repository test asserting the bound. -/
theorem optimize_context_exceeds_budget :
    (optimize_context 10 ["aaaaa", "bbbbb"]).length = 11 ∧
      ¬ (optimize_context 10 ["aaaaa", "bbbbb"]).length ≤ 10 := by decide

/-- C5 counterexample: `completed_at` is not write-once.  Completing the
sample task at time 1 sets `completed_at = 1`, but a second
`mark_task_complete` at time 2 overwrites it with 2: `update_task`
re-stamps `completed_at` on every update whose status argument is
`completed`, without checking the stored value. -/
theorem completed_at_overwritten_by_second_complete :
    (mark_task_complete 1 sampleTask).completed_at = some 1 ∧
      (mark_task_complete 2 (mark_task_complete 1 sampleTask)).completed_at
        = some 2 ∧
      ((2 : ℚ) = 1 → False) := by decide

/-- C5 amended: every `mark_task_complete` (not only the first) stamps
`completed_at` with the current time, and the other two lifecycle
transitions never touch the field. -/
theorem completed_at_stamped_on_every_complete (t : DbTask)
    (now now2 now3 : ℚ) (reason : String) :
    (mark_task_complete now t).completed_at = some now ∧
      (mark_task_blocked now2 reason t).completed_at = t.completed_at ∧
      (mark_task_in_progress now3 t).completed_at = t.completed_at := by
  refine ⟨?_, ?_, ?_⟩ <;>
    simp [mark_task_complete, mark_task_blocked, mark_task_in_progress,
      update_task]

/-- C6 counterexample: `blocked_reason` is not cleared when a task leaves
`blocked`.  Blocking the sample task and then marking it in progress
leaves status `in_progress` with `blocked_reason` still present. -/
theorem blocked_reason_survives_unblock :
    (mark_task_in_progress 2
        (mark_task_blocked 1 "waiting on API" sampleTask)).status
      = TStatus.in_progress ∧
      (mark_task_in_progress 2
          (mark_task_blocked 1 "waiting on API" sampleTask)).blocked_reason
        = some "waiting on API" := by decide

/-- C6 amended: `mark_task_blocked` sets `blocked_reason`, and no other
lifecycle transition modifies it — in particular a blocked task moved to
`in_progress` (or `completed`) keeps its stale reason. -/
theorem blocked_reason_never_cleared (t : DbTask) (reason : String)
    (n1 n2 n3 : ℚ) :
    (mark_task_blocked n1 reason t).blocked_reason = some reason ∧
      (mark_task_in_progress n2
          (mark_task_blocked n1 reason t)).blocked_reason = some reason ∧
      (mark_task_in_progress n2 t).blocked_reason = t.blocked_reason ∧
      (mark_task_complete n3 t).blocked_reason = t.blocked_reason := by
  refine ⟨?_, ?_, ?_, ?_⟩ <;>
    simp [mark_task_complete, mark_task_blocked, mark_task_in_progress,
      update_task]

/-- Python formats the similarity 1/8 as `0.12`. -/
lemma format2f_eighth : format2f (1 / 8) = "0.12" := by
  have hR : roundHalfEven ((1 / 8 : ℚ) * 100) = 12 := by
    rw [roundHalfEven]; norm_num
  simp only [format2f, hR]
  decide

/-- Python formats the similarity 1/10 as `0.10`. -/
lemma format2f_tenth : format2f (1 / 10) = "0.10" := by
  have hR : roundHalfEven ((1 / 10 : ℚ) * 100) = 10 := by
    rw [roundHalfEven]; norm_num
  simp only [format2f, hR]
  decide

/-- The claim scenario's keyword sets share only `postgresql`, out of 8
distinct keywords. -/
lemma sim_c3_main : calculate_similarity
    (extract_keywords "Build document pipeline using PostgreSQL")
    (extract_keywords "Implement vector embeddings with PostgreSQL") =
    1 / 8 := by
  rw [show extract_keywords "Build document pipeline using PostgreSQL" =
      ["build", "document", "pipeline", "using", "postgresql"] from by
    decide,
    show extract_keywords "Implement vector embeddings with PostgreSQL" =
      ["implement", "vector", "embeddings", "postgresql"] from by decide]
  rw [calculate_similarity, if_neg (by decide)]
  simp only []
  rw [show ((["build", "document", "pipeline", "using",
      "postgresql"].toFinset ∩
      ["implement", "vector", "embeddings", "postgresql"].toFinset).card)
      = 1 from by decide]
  rw [show ((["build", "document", "pipeline", "using",
      "postgresql"].toFinset ∪
      ["implement", "vector", "embeddings", "postgresql"].toFinset).card)
      = 8 from by decide]
  norm_num

/-- The repository test's scenario shares only `postgresql`, out of 10
distinct keywords (`vector` and `vectors` do not match). -/
lemma sim_c3_testscope : calculate_similarity
    (extract_keywords
      "Build document RAG pipeline using PostgreSQL vectors. No UI.")
    (extract_keywords "Implement vector embeddings with PostgreSQL") =
    1 / 10 := by
  rw [show extract_keywords
      "Build document RAG pipeline using PostgreSQL vectors. No UI." =
      ["build", "document", "rag", "pipeline", "using", "postgresql",
       "vectors"] from by decide,
    show extract_keywords "Implement vector embeddings with PostgreSQL" =
      ["implement", "vector", "embeddings", "postgresql"] from by decide]
  rw [calculate_similarity, if_neg (by decide)]
  simp only []
  rw [show ((["build", "document", "rag", "pipeline", "using",
      "postgresql", "vectors"].toFinset ∩
      ["implement", "vector", "embeddings", "postgresql"].toFinset).card)
      = 1 from by decide]
  rw [show ((["build", "document", "rag", "pipeline", "using",
      "postgresql", "vectors"].toFinset ∪
      ["implement", "vector", "embeddings", "postgresql"].toFinset).card)
      = 10 from by decide]
  norm_num

/-- C3: the spec scenario fails on the code.  For scope
`"Build document pipeline using PostgreSQL"` and task
`"Implement vector embeddings with PostgreSQL"` no exclusion fires, the
Jaccard similarity is 1/8 = 0.125 < 0.3, and `check_scope_creep` returns
`isCreep = true` — the spec says false.  The second conjunct evaluates
the repository's own `test_within_scope` scenario (a near-identical
scope), which the code also classifies as creep (1/10 < 0.3) although
the test asserts in-scope: the code contradicts its own test suite. -/
theorem check_scope_creep_postgresql_scenario_is_creep :
    check_scope_creep "Build document pipeline using PostgreSQL"
        "Implement vector embeddings with PostgreSQL" =
      (true, "Low relevance to original scope (similarity: 0.12)") ∧
      check_scope_creep
          "Build document RAG pipeline using PostgreSQL vectors. No UI."
          "Implement vector embeddings with PostgreSQL" =
        (true, "Low relevance to original scope (similarity: 0.10)") := by
  constructor
  · rw [check_scope_creep, check_scope_creep_with]
    rw [show is_explicitly_excluded
        "Implement vector embeddings with PostgreSQL"
        "Build document pipeline using PostgreSQL" = (false, "") from by
      decide]
    simp only []
    rw [if_neg (by decide), sim_c3_main, if_pos (by norm_num),
      format2f_eighth]
    decide
  · rw [check_scope_creep, check_scope_creep_with]
    rw [show is_explicitly_excluded
        "Implement vector embeddings with PostgreSQL"
        "Build document RAG pipeline using PostgreSQL vectors. No UI." =
        (false, "") from by decide]
    simp only []
    rw [if_neg (by decide), sim_c3_testscope, if_pos (by norm_num),
      format2f_tenth]
    decide

/-- On a project with no tasks, `get_velocity` reports zero activity. -/
lemma get_velocity_nil (now : ℚ) (days : ℤ) :
    get_velocity now days [] =
      { period_days := days, tasks_completed := 0, tasks_per_day := 0,
        remaining_tasks := 0, estimated_days_to_completion := none } := by
  simp [get_velocity, velocity_recent, get_task_stats, pyRound,
    roundHalfEven]

/-- On a project with no tasks, no stuck indicator fires. -/
lemma detect_stuck_patterns_nil (now pc : ℚ) :
    detect_stuck_patterns now pc [] = [] := by
  simp [detect_stuck_patterns, get_task_stats]

/-- On a project with no tasks, the only health penalty is the flat 10
for `tasks_per_day < 0.5`, so the score is 90, still `healthy`. -/
lemma health_nil (now pc : ℚ) :
    (get_project_health now pc []).score = 90 ∧
      (get_project_health now pc []).status = "healthy" := by
  simp [get_project_health, get_task_stats, detect_stuck_patterns_nil,
    get_velocity_nil]

/-- The final clamp keeps every health score within `[0, 100]`. -/
lemma health_bounds (now pc : ℚ) (tasks : List DbTask) :
    0 ≤ (get_project_health now pc tasks).score ∧
      (get_project_health now pc tasks).score ≤ 100 := by
  simp only [get_project_health]
  exact ⟨le_max_left _ _, max_le (by norm_num) (min_le_left _ _)⟩

/-- C2 counterexample: a project with zero tasks does not score 100: the
empty 7-day window makes `tasks_per_day = 0 < 0.5`, so the low-velocity
penalty applies and the score is 90 (status still `healthy`). -/
theorem get_project_health_zero_tasks_not_100 :
    (get_project_health 0 0 []).score = 90 ∧
      ((get_project_health 0 0 []).score = 100 → False) := by
  have h := health_nil 0 0
  exact ⟨h.1, by rw [h.1]; decide⟩

/-- C2 amended: for every project state the health score lies in
`[0, 100]`, and a project with zero tasks scores exactly 90 with status
`healthy` (the low-velocity penalty fires; every other penalty needs at
least one task). -/
theorem get_project_health_range_and_zero_tasks (now pc : ℚ)
    (tasks : List DbTask) :
    (0 ≤ (get_project_health now pc tasks).score ∧
        (get_project_health now pc tasks).score ≤ 100) ∧
      (tasks = [] → (get_project_health now pc tasks).score = 90 ∧
        (get_project_health now pc tasks).status = "healthy") := by
  refine ⟨health_bounds now pc tasks, ?_⟩
  rintro rfl
  exact health_nil now pc

/-- C2 witness: the range and the zero-task score at a concrete state. -/
theorem get_project_health_range_and_zero_tasks_witness :
    (0 ≤ (get_project_health 0 0 []).score ∧
        (get_project_health 0 0 []).score ≤ 100) ∧
      (get_project_health 0 0 []).score = 90 ∧
        (get_project_health 0 0 []).status = "healthy" := by
  have h := get_project_health_range_and_zero_tasks 0 0 []
  exact ⟨h.1, h.2 rfl⟩

/-- The count the spec describes for `getVelocity`: tasks whose status is
`completed` and whose `completed_at` lies within the trailing
`days`-day window ending at `now`. -/
def window_completed_count (now : ℚ) (days : ℤ) (tasks : List DbTask) :
    ℕ :=
  tasks.countP (fun t => decide (t.status = TStatus.completed) &&
    t.completed_at.any (fun c => decide (now - 24 * (days : ℚ) ≤ c)))

/-- The remaining-work count the spec describes: pending plus in-progress
tasks. -/
def remaining_count (tasks : List DbTask) : ℕ :=
  tasks.countP (fun t => decide (t.status = TStatus.pending) ||
    decide (t.status = TStatus.in_progress))

/-- The `recent_completed` list has exactly `window_completed_count`
elements. -/
lemma velocity_recent_length (now : ℚ) (days : ℤ) (tasks : List DbTask) :
    (velocity_recent now days tasks).length =
      window_completed_count now days tasks := by
  rw [velocity_recent, List.filter_filter, window_completed_count,
    List.countP_eq_length_filter]
  have hf : (fun a : DbTask =>
      (match a.completed_at with
        | some c => decide (now - 24 * (days : ℚ) ≤ c)
        | none => false) && decide (a.status = TStatus.completed)) =
      (fun t : DbTask => decide (t.status = TStatus.completed) &&
        t.completed_at.any (fun c => decide (now - 24 * (days : ℚ) ≤ c))) := by
    funext t
    cases h : t.completed_at with
    | none => simp [h]
    | some c => simp [h, Bool.and_comm]
  rw [hf]

/-- The stats sum `pending + in_progress` counts exactly the tasks whose
status is pending or in progress. -/
lemma remaining_count_eq (tasks : List DbTask) :
    (get_task_stats tasks).pending + (get_task_stats tasks).in_progress =
      remaining_count tasks := by
  induction tasks with
  | nil => rfl
  | cons t ts ih =>
      simp only [get_task_stats, remaining_count, List.countP_cons,
        List.filter_cons] at ih ⊢
      cases h : t.status <;> simp [h, ih] <;> omega

/-- A completed task row whose `completed_at` lies inside every trailing
window ending at time 0. -/
def oneCompletedTask : DbTask :=
  { description := "t",
    status := TStatus.completed,
    is_scope_creep := false,
    blocked_reason := none,
    created_at := 0,
    completed_at := some 0 }

/-- C7 counterexample: with one task completed inside the 7-day window
and nothing remaining, `tasks_per_day = round(1/7, 2) = 0.14 ≠ 0`, yet
`estimated_days_to_completion` is null: the Python truthiness test
`round(estimated_days, 1) if estimated_days else None` also maps the
exact estimate `0.0` (remaining = 0) to null, so null does not happen
exactly when `tasks_per_day` is 0.  The returned rate is also the
rounded `7/50`, not the exact `1/7`. -/
theorem get_velocity_null_estimate_despite_nonzero_rate :
    (get_velocity 0 7 [oneCompletedTask]).tasks_per_day = 7 / 50 ∧
      ((get_velocity 0 7 [oneCompletedTask]).tasks_per_day = 0 → False) ∧
      (get_velocity 0 7 [oneCompletedTask]).estimated_days_to_completion
        = none := by
  norm_num [get_velocity, velocity_recent, get_task_stats,
    oneCompletedTask, pyRound, roundHalfEven,
    List.filter_cons, List.filter_nil,
    (by decide : ¬ (TStatus.completed = TStatus.pending)),
    (by decide : ¬ (TStatus.completed = TStatus.in_progress))]

/-- C7 amended: for a positive window, `get_velocity` reports
`tasks_per_day = round(count / days, 2)` for the windowed completion
count, `remaining = pending + in_progress`, and an
`estimated_days_to_completion` that equals
`round(remaining / (count / days), 1)` except that it is null when the
windowed count is 0 **or** the remaining count is 0. -/
theorem get_velocity_formulas (now : ℚ) (days : ℤ) (tasks : List DbTask)
    (h : 0 < days) :
    (get_velocity now days tasks).period_days = days ∧
      (get_velocity now days tasks).tasks_completed =
        window_completed_count now days tasks ∧
      (get_velocity now days tasks).tasks_per_day =
        pyRound 2 ((window_completed_count now days tasks : ℚ) /
          (days : ℚ)) ∧
      (get_velocity now days tasks).remaining_tasks =
        remaining_count tasks ∧
      (get_velocity now days tasks).estimated_days_to_completion =
        (if window_completed_count now days tasks = 0 ∨
            remaining_count tasks = 0 then none
         else some (pyRound 1 ((remaining_count tasks : ℚ) /
           ((window_completed_count now days tasks : ℚ) /
             (days : ℚ))))) := by
  simp only [get_velocity, velocity_recent_length, remaining_count_eq, h,
    if_true]
  refine ⟨trivial, trivial, trivial, trivial, ?_⟩
  rcases Nat.eq_zero_or_pos (window_completed_count now days tasks) with
    hn | hn
  · simp [hn]
  · have hdq : (0 : ℚ) < (days : ℚ) := by exact_mod_cast h
    have htpd : (0 : ℚ) <
        (window_completed_count now days tasks : ℚ) / (days : ℚ) :=
      div_pos (by exact_mod_cast hn) hdq
    rcases Nat.eq_zero_or_pos (remaining_count tasks) with hr | hr
    · simp [hr, htpd]
    · have hrq : ((remaining_count tasks : ℚ) /
          ((window_completed_count now days tasks : ℚ) / (days : ℚ)))
            ≠ 0 :=
        div_ne_zero (by exact_mod_cast hr.ne') (ne_of_gt htpd)
      simp [htpd, hrq, hn.ne', hr.ne']

/-- C7 witness: the amended formulas at a concrete one-task state with
the default 7-day window. -/
theorem get_velocity_formulas_witness :
    (0 : ℤ) < 7 ∧
      (get_velocity 0 7 [oneCompletedTask]).tasks_per_day =
        pyRound 2 ((window_completed_count 0 7 [oneCompletedTask] : ℚ) /
          ((7 : ℤ) : ℚ)) ∧
      (get_velocity 0 7 [oneCompletedTask]).remaining_tasks =
        remaining_count [oneCompletedTask] ∧
      (get_velocity 0 7 [oneCompletedTask]).estimated_days_to_completion =
        (if window_completed_count 0 7 [oneCompletedTask] = 0 ∨
            remaining_count [oneCompletedTask] = 0 then none
         else some (pyRound 1 ((remaining_count [oneCompletedTask] : ℚ) /
           ((window_completed_count 0 7 [oneCompletedTask] : ℚ) /
             ((7 : ℤ) : ℚ))))) := by
  have h := get_velocity_formulas 0 7 [oneCompletedTask] (by decide)
  exact ⟨by decide, h.2.2.1, h.2.2.2.1, h.2.2.2.2⟩

/-- A character list is a prefix of itself followed by anything. -/
lemma isPrefixOf_self_append (l r : List Char) :
    l.isPrefixOf (l ++ r) = true := by
  induction l with
  | nil => simp [List.isPrefixOf]
  | cons c cs ih => simp [List.isPrefixOf, ih]

/-- Whenever the exclusion scan fires, the reason it reports is one of
the `Explicitly excluded: ...` messages. -/
lemma excl_scan_message (taskL scopeL : List Char)
    (pats : List (List (List Char) × String))
    (h : (excl_scan taskL scopeL pats).fst = true) :
    ("Explicitly excluded: ".toList).isPrefixOf
      ((excl_scan taskL scopeL pats).snd).toList = true := by
  induction pats with
  | nil => simp [excl_scan] at h
  | cons p rest ih =>
      obtain ⟨lits, kind⟩ := p
      cases hf : (findall lits scopeL).find? (fun m => strContains taskL m)
        with
      | some m =>
          simp only [excl_scan, hf]
          have hmsg : (mkExclMessage kind m).toList =
              "Explicitly excluded: ".toList ++
                (kind ++ " " ++ String.mk m).toList := by
            simp [mkExclMessage, String.toList, String.data_append,
              List.append_assoc]
          rw [hmsg]
          exact isPrefixOf_self_append _ _
      | none =>
          simp only [excl_scan, hf] at h ⊢
          exact ih h

/-- C4: whenever some exclusion pattern captured from the scope occurs in
the lower-cased task text (i.e. the exclusion check fires),
`check_scope_creep` classifies the task as creep with that check's
`Explicitly excluded` reason, and it does so for **every** similarity
function — in particular for similarity constantly 1 ≥ 0.3 — showing the
short-circuit: the verdict never consults the similarity. -/
theorem check_scope_creep_exclusion_dominates (scope task : String)
    (h : (is_explicitly_excluded task scope).fst = true) :
    (∀ simf : List String → List String → ℚ,
        check_scope_creep_with simf scope task =
          (true, (is_explicitly_excluded task scope).snd)) ∧
      check_scope_creep scope task =
        (true, (is_explicitly_excluded task scope).snd) ∧
      ("Explicitly excluded: ".toList).isPrefixOf
        ((is_explicitly_excluded task scope).snd).toList = true := by
  have hmain : ∀ simf : List String → List String → ℚ,
      check_scope_creep_with simf scope task =
        (true, (is_explicitly_excluded task scope).snd) := by
    intro simf
    rw [check_scope_creep_with]
    simp only [h, if_true]
  refine ⟨hmain, hmain _, ?_⟩
  rw [is_explicitly_excluded] at h ⊢
  exact excl_scan_message _ _ _ h

/-- C4 witness: scope `"use files, no database"` excludes `database`; the
task `"add database index"` is creep with the exclusion reason, even
under a similarity function that always returns 1. -/
theorem check_scope_creep_exclusion_dominates_witness :
    check_scope_creep_with (fun _ _ => 1) "use files, no database"
        "add database index" =
        (true, "Explicitly excluded: no database") ∧
      check_scope_creep "use files, no database" "add database index" =
        (true, "Explicitly excluded: no database") ∧
      ("Explicitly excluded: ".toList).isPrefixOf
        ("Explicitly excluded: no database".toList) = true := by
  have h := check_scope_creep_exclusion_dominates "use files, no database"
    "add database index" (by decide)
  have hs : (is_explicitly_excluded "add database index"
      "use files, no database").snd =
      "Explicitly excluded: no database" := by decide
  refine ⟨?_, ?_, ?_⟩
  · rw [h.1 (fun _ _ => 1), hs]
  · rw [h.2.1, hs]
  · have hp := h.2.2
    rwa [hs] at hp

/-- The relevance score of task `"not they"` against scope
`"they build apps"` is 1/4: the scorer's own keyword sets are
`{they, build, apps}` and `{not, they}`. -/
lemma relevance_cex_val :
    calculate_relevance_score (some ⟨"p", "they build apps"⟩) "not they" =
      1 / 4 := by
  simp only [calculate_relevance_score]
  rw [show ctx_scope_keywords "they build apps" =
    ["they", "build", "apps"] from by decide]
  rw [show task_side_tokens "not they" = ["not", "they"] from by decide]
  rw [if_neg (by decide), if_neg (by decide), if_neg (by decide)]
  rw [show ((["they", "build", "apps"].toFinset ∩
      ["not", "they"].toFinset).card) = 1 from by decide]
  rw [show ((["they", "build", "apps"].toFinset ∪
      ["not", "they"].toFinset).card) = 4 from by decide]
  norm_num

/-- C8 counterexample: the three tokenizations do not produce the same
sets.  `they` survives the relevance scorer's scope-side stop list but
not the classifier's; `not` survives the task side (which applies no stop
list) but not the classifier's.  Consequently the relevance score is not
the Jaccard similarity over the classifier's keyword sets: for scope
`"they build apps"` and task `"not they"` the classifier's task keyword
set is empty — the claim would then give the 0.5 default — yet
`calculate_relevance_score` returns 1/4. -/
theorem keyword_extractors_disagree :
    ("they" ∈ ctx_scope_keywords "they design" ∧
        "they" ∉ extract_keywords "they design") ∧
      ("not" ∈ task_side_tokens "not reviewed" ∧
        "not" ∉ extract_keywords "not reviewed") ∧
      extract_keywords "not they" = [] ∧
      calculate_relevance_score (some ⟨"p", "they build apps"⟩) "not they"
        = 1 / 4 ∧ (1 / 4 : ℚ) ≠ 1 / 2 := by
  exact ⟨by decide, by decide, by decide, relevance_cex_val, by norm_num⟩

/-- C8 amended: the three tokenizations share lower-casing,
word-boundary splitting and the length > 2 filter but apply different
stop lists (classifier: the long list; scope side: the short list; task
side: none), so the classifier's keyword set is contained in the
scorer's scope-side set, which is contained in the task-side token set.
`calculate_relevance_score` is the Jaccard similarity over its *own* two
sets, defaulting to 0.5 when either is empty (also when the project is
unresolved). -/
theorem relevance_tokenizers_and_score (text pname scope task : String) :
    (∀ w, w ∈ extract_keywords text → w ∈ ctx_scope_keywords text) ∧
      (∀ w, w ∈ ctx_scope_keywords text → w ∈ task_side_tokens text) ∧
      calculate_relevance_score (some ⟨pname, scope⟩) task =
        (if (ctx_scope_keywords scope).toFinset = ∅ ∨
            (task_side_tokens task).toFinset = ∅ then 1 / 2
         else (((ctx_scope_keywords scope).toFinset ∩
            (task_side_tokens task).toFinset).card : ℚ) /
           (((ctx_scope_keywords scope).toFinset ∪
            (task_side_tokens task).toFinset).card : ℚ)) ∧
      calculate_relevance_score none task = 1 / 2 := by
  have hsub : ∀ x, x ∈ ctx_stop_words → x ∈ stop_words_state := by decide
  refine ⟨?_, ?_, ?_, by simp [calculate_relevance_score]⟩
  · intro w hw
    simp only [extract_keywords, List.mem_filter, Bool.and_eq_true,
      Bool.not_eq_true', decide_eq_true_eq] at hw
    simp only [ctx_scope_keywords, List.mem_filter, Bool.and_eq_true,
      Bool.not_eq_true', decide_eq_true_eq]
    refine ⟨hw.1, ?_, hw.2.2⟩
    have hw1 : w ∉ stop_words_state := by
      intro hmem
      have hc := hw.2.1
      simp [hmem] at hc
    have hw2 : w ∉ ctx_stop_words := fun hc => hw1 (hsub w hc)
    simp [hw2]
  · intro w hw
    simp only [ctx_scope_keywords, List.mem_filter, Bool.and_eq_true,
      Bool.not_eq_true', decide_eq_true_eq] at hw
    simp only [task_side_tokens, List.mem_filter, decide_eq_true_eq]
    exact ⟨hw.1, hw.2.2⟩
  · simp only [calculate_relevance_score]
    by_cases hsk : (ctx_scope_keywords scope).toFinset = ∅
    · rw [if_pos hsk, if_pos (Or.inl hsk)]
    · rw [if_neg hsk]
      by_cases htk : (task_side_tokens task).toFinset = ∅
      · rw [if_pos htk, if_pos (Or.inr htk)]
      · rw [if_neg htk,
          if_neg (show ¬ ((ctx_scope_keywords scope).toFinset ∪
            (task_side_tokens task).toFinset = ∅) from
            fun hu => hsk (Finset.union_eq_empty.mp hu).1),
          if_neg (show ¬ ((ctx_scope_keywords scope).toFinset = ∅ ∨
            (task_side_tokens task).toFinset = ∅) from
            fun hor => hor.elim hsk htk)]

/-- C8 witness: the containments applied at concrete tokens, and the
Jaccard form of the score at a concrete scope and task. -/
theorem relevance_tokenizers_and_score_witness :
    "design" ∈ ctx_scope_keywords "they design" ∧
      "they" ∈ task_side_tokens "they design" ∧
      calculate_relevance_score (some ⟨"p", "they build apps"⟩) "not they"
        = (if (ctx_scope_keywords "they build apps").toFinset = ∅ ∨
              (task_side_tokens "not they").toFinset = ∅ then 1 / 2
           else (((ctx_scope_keywords "they build apps").toFinset ∩
              (task_side_tokens "not they").toFinset).card : ℚ) /
             (((ctx_scope_keywords "they build apps").toFinset ∪
              (task_side_tokens "not they").toFinset).card : ℚ)) ∧
      calculate_relevance_score none "not they" = 1 / 2 := by
  have h := relevance_tokenizers_and_score "they design" "p"
    "they build apps" "not they"
  exact ⟨h.1 "design" (by decide), h.2.1 "they" (by decide), h.2.2.1,
    h.2.2.2⟩

/-- C9: when the classifier's project id does not resolve,
`check_scope_creep` returns exactly `(false, "Project not found")`; the
lookup branch is total, so no exception is possible. -/
theorem check_scope_creep_project_not_found (proj : Option ProjectRec)
    (task : String) (h : proj = none) :
    check_scope_creep_db proj task = (false, "Project not found") := by
  subst h; rfl

/-- C9 witness: the unresolved-project branch at a concrete task. -/
theorem check_scope_creep_project_not_found_witness :
    check_scope_creep_db none "Add user authentication" =
      (false, "Project not found") :=
  check_scope_creep_project_not_found none "Add user authentication" rfl

/-- C10: the classifier's similarity is a function of the underlying sets
of its two keyword lists — symmetric, and unchanged under duplication or
reordering of either list — so duplicate keywords never skew a
scope-creep classification. -/
theorem calculate_similarity_set_invariant (k1 k2 k1' k2' : List String)
    (h1 : k1.toFinset = k1'.toFinset) (h2 : k2.toFinset = k2'.toFinset) :
    calculate_similarity k1 k2 = calculate_similarity k2 k1 ∧
      calculate_similarity k1 k2 = calculate_similarity k1' k2' := by
  constructor
  · rw [calculate_similarity_eq_jaccardF, calculate_similarity_eq_jaccardF,
      jaccardF_comm]
  · rw [calculate_similarity_eq_jaccardF, calculate_similarity_eq_jaccardF,
      h1, h2]

/-- C10 witness: duplicated and reordered keyword lists with equal
underlying sets give equal similarity, at concrete inputs. -/
theorem calculate_similarity_set_invariant_witness :
    calculate_similarity ["api", "db", "db"] ["api"] =
        calculate_similarity ["api"] ["api", "db", "db"] ∧
      calculate_similarity ["api", "db", "db"] ["api"] =
        calculate_similarity ["db", "api"] ["api", "api"] :=
  calculate_similarity_set_invariant ["api", "db", "db"] ["api"]
    ["db", "api"] ["api", "api"] (by decide) (by decide)

end Conductor
